import Mathlib

/-!
Verification of the tauon-now-playing widget: a shallow embedding of the
poller admission filter, snapshot assembly, color math, render configuration
layering, SVG card renderer and HTTP handlers, with theorems checking the
natural-language specification against the code.

JavaScript numbers are modelled by exact rationals; external effects
(clock, art fetching, theme and font file loading, the KV store, and the
floating-point waveform generator) are threaded as explicit parameters.
-/

namespace TauonNP

/-- Empty string constant, used where the source writes a bare empty literal. -/
def emptyS : String := ""

/-- Single-quote character as a string (used when assembling CSS markup). -/
def apos : String := String.mk [Char.ofNat 39]

/-- JavaScript string-or (`a || b`): the empty string is falsy. -/
def orStr (a b : String) : String := if a = emptyS then b else a

/-- Template concatenation: a template literal is the ordered concatenation
of its chunks and interpolated values. -/
def tpl (parts : List String) : String := parts.foldr (fun a b => a ++ b) emptyS

/-- Whitespace test used by trimming (space, tab, newline, carriage return). -/
def jsWS (c : Char) : Bool := c == ' ' || c == '\t' || c == '\n' || c == '\r'

/-- `s.trim()`: strip leading and trailing whitespace. Implemented on the
character list so it evaluates in proofs. -/
def trimChars (s : String) : String :=
  String.mk (((s.data.dropWhile jsWS).reverse.dropWhile jsWS).reverse)

/-- Substring containment on strings, via list infixes on the char data. -/
def StrIn (p s : String) : Prop := p.data <:+: s.data

/-- Track metadata reported by the player (`TauonTrack`); only the fields the
poller reads are carried. -/
structure TauonTrack where
  title : String
  artist : String
  album : String
  album_artist : String
  track_number : String
  duration : ℚ
deriving Repr, DecidableEq

/-- Player status snapshot (`TauonStatus`); only the fields the poller reads
are carried. -/
structure TauonStatus where
  status : String
  id : ℤ
  title : String
  artist : String
  album : String
  progress : ℚ
  track : TauonTrack
deriving Repr, DecidableEq

/-- Extracted color palette (`ColorPalette`). -/
structure ColorPalette where
  dominant : String
  accent : String
  highlight : String
deriving Repr, DecidableEq

/-- Published snapshot (`NowPlayingData`). The status field is kept as a
string, mirroring its runtime representation. -/
structure NowPlayingData where
  title : String
  artist : String
  album : String
  albumArtist : String
  trackNumber : String
  duration : ℚ
  progress : ℚ
  status : String
  artBase64 : Option String
  colors : Option ColorPalette
  updatedAt : ℚ
deriving Repr, DecidableEq

/-! ## Update admission filter (src/unnamed/part_003, `shouldUpdate`) -/

/-- Decide whether the poller should send an update
(`shouldUpdate` in src/unnamed/part_003). -/
def shouldUpdate (status : TauonStatus) (lastSentTrackId : Option ℤ)
    (lastSentStatus lastSeenStatus : Option String) : Bool :=
  let trackId := status.id
  let statusStr := status.status
  let isPlayableStatus := statusStr == "playing" || statusStr == "paused"
  if !isPlayableStatus then
    false
  else if some trackId != lastSentTrackId then
    true
  else if some statusStr != lastSentStatus then
    true
  else if lastSeenStatus == some "stopped" then
    true
  else
    false

/-- The poller's mutable admission memory (module state in
src/poller/index.ts lines 14-16). -/
structure PollState where
  lastSentTrackId : Option ℤ
  lastSentStatus : Option String
  lastSeenStatus : Option String
deriving Repr, DecidableEq

/-- Initial poller memory: nothing sent, nothing seen. -/
def initialPollState : PollState := ⟨none, none, none⟩

/-- One admission step of `poll` (src/poller/index.ts lines 42-50 and 93-98),
under the assumption that every admitted observation is successfully
published, so the last-sent fields advance after each publish. Returns the
new memory and whether a publish happened. -/
def pollAdmit (s : PollState) (obs : TauonStatus) : PollState × Bool :=
  if !(obs.status == "playing" || obs.status == "paused") then
    ({ s with lastSeenStatus := some obs.status }, false)
  else if !(shouldUpdate obs s.lastSentTrackId s.lastSentStatus s.lastSeenStatus) then
    ({ s with lastSeenStatus := some obs.status }, false)
  else
    (⟨some obs.id, some obs.status, some obs.status⟩, true)

/-- Run the admission filter over a sequence of observations, collecting
for each observation whether it was published. -/
def runPoll (s : PollState) : List TauonStatus → List Bool
  | [] => []
  | obs :: rest =>
    let step := pollAdmit s obs
    step.2 :: runPoll step.1 rest

/-- A bare observation with only a track id and a status string set. -/
def mkObs (id : ℤ) (st : String) : TauonStatus :=
  ⟨st, id, emptyS, emptyS, emptyS, 0, ⟨emptyS, emptyS, emptyS, emptyS, emptyS, 0⟩⟩

/-- The poller's album-art cache (module state in src/poller/index.ts
lines 17-19). -/
structure ArtCache where
  lastAlbumName : Option String
  lastArtBase64 : Option String
  lastColors : Option ColorPalette
deriving Repr, DecidableEq

/-- Result of `fetchAndResizeArt`: the resized art and its palette. -/
structure ArtResult where
  base64 : String
  colors : ColorPalette
deriving Repr, DecidableEq

/-- JavaScript truthiness of a nullable string: null and the empty string
are falsy. -/
def truthyOptStr : Option String → Bool
  | none => false
  | some s => !(s == emptyS)

/-- JavaScript number-or (`a || b`): zero is falsy. -/
def orQ (a b : ℚ) : ℚ := if a = 0 then b else a

/-- Snapshot assembly step of `poll` (src/poller/index.ts lines 52-89): art
acquisition with album-level caching, then the `NowPlayingData` record. The
result of `fetchAndResizeArt` is an explicit parameter (network effect); it
is consulted only on a cache miss. Returns the assembled snapshot and the
updated art cache. -/
def assembleSnapshot (status : TauonStatus) (cache : ArtCache)
    (fetchResult : Option ArtResult) (nowMs : ℚ) : NowPlayingData × ArtCache :=
  let albumName := trimChars (orStr (status.track.album) (orStr (status.album) emptyS))
  let isPlayableStatus := status.status == "playing" || status.status == "paused"
  let hasCachedArt := decide (albumName.length > 0) &&
    (some albumName == cache.lastAlbumName) &&
    truthyOptStr cache.lastArtBase64 && cache.lastColors.isSome
  let acd : Option String × Option ColorPalette × ArtCache :=
    if isPlayableStatus && decide (status.id > 0) && decide (albumName.length > 0) then
      if !hasCachedArt then
        match fetchResult with
        | some r => (some r.base64, some r.colors, ⟨some albumName, some r.base64, some r.colors⟩)
        | none => (none, none, cache)
      else
        (cache.lastArtBase64, cache.lastColors, cache)
    else
      (none, none, cache)
  ({ title := orStr (status.title) (orStr (status.track.title) ("Unknown Title"))
     artist := orStr (status.artist) (orStr (status.track.artist) ("Unknown Artist"))
     album := orStr (status.album) (orStr (status.track.album) ("Unknown Album"))
     albumArtist := orStr (status.track.album_artist) (orStr (status.artist) ("Unknown Artist"))
     trackNumber := orStr (status.track.track_number) emptyS
     duration := orQ (status.track.duration) 0
     progress := status.progress
     status := status.status
     artBase64 := acd.1
     colors := acd.2.1
     updatedAt := nowMs }, acd.2.2)

/-- Hex digit value of a character, as consumed by `parseInt(s, 16)`. -/
def hexDigitVal (c : Char) : Option ℕ :=
  if '0' ≤ c ∧ c ≤ '9' then some (c.toNat - 48)
  else if 'a' ≤ c ∧ c ≤ 'f' then some (c.toNat - 87)
  else if 'A' ≤ c ∧ c ≤ 'F' then some (c.toNat - 55)
  else none

/-- `parseInt(s, 16)` on a slice of at most two characters; none models NaN. -/
def parseHexPair : List Char → Option ℕ
  | [c1, c2] =>
    match hexDigitVal c1, hexDigitVal c2 with
    | some v1, some v2 => some (16 * v1 + v2)
    | _, _ => none
  | [c1] => hexDigitVal c1
  | _ => none

/-- Remove the first occurrence of the hash character, as
`hex.replace("#", "")` does with a plain-string pattern. -/
def removeFirstHash : List Char → List Char
  | [] => []
  | c :: cs => if c = '#' then cs else c :: removeFirstHash cs

/-- String form of `hex.replace("#", "")`. -/
def stripHash (s : String) : String := String.mk (removeFirstHash s.data)

/-- `s.slice(start, start + len)` as a character list. -/
def sliceChars (s : String) (start len : ℕ) : List Char := (s.data.drop start).take len

/-- `hexToRgb` (src/unnamed/part_005 lines 1-7). A channel whose slice fails
to parse is NaN in JS; that case is modelled as none. -/
def hexToRgb (hex : String) : Option (ℕ × ℕ × ℕ) :=
  let normalized := stripHash hex
  match parseHexPair (sliceChars normalized 0 2), parseHexPair (sliceChars normalized 2 2),
      parseHexPair (sliceChars normalized 4 2) with
  | some r, some g, some b => some (r, g, b)
  | _, _, _ => none

/-- Lowercase hexadecimal digit character, as produced by `toString(16)`. -/
def hexChar (n : ℕ) : Char := if n < 10 then Char.ofNat (48 + n) else Char.ofNat (87 + n)

/-- `n.toString(16).padStart(2, "0")` for a channel value n ≤ 255. -/
def toHex2 (n : ℕ) : String := String.mk [hexChar (n / 16), hexChar (n % 16)]

/-- `rgbToHex` (src/unnamed/part_005 lines 9-13). -/
def rgbToHex (r g b : ℕ) : String := "#" ++ toHex2 r ++ toHex2 g ++ toHex2 b

/-- `Math.round`: round half toward positive infinity. -/
def jsRound (q : ℚ) : ℤ := Rat.floor (q + 1 / 2)

def clamp255 (v : ℤ) : ℤ := max 0 (min 255 v)

/-- `mixColors` (src/unnamed/part_005 lines 23-31): per-channel linear blend
of two hex colors. On malformed input JS propagates NaN channels into a
marker string; that case is modelled as none. -/
def mixColors (hexA hexB : String) (k : ℚ) : Option String :=
  match hexToRgb hexA, hexToRgb hexB with
  | some a, some b =>
    let r := clamp255 (jsRound ((a.1 : ℚ) * (1 - k) + (b.1 : ℚ) * k))
    let g := clamp255 (jsRound ((a.2.1 : ℚ) * (1 - k) + (b.2.1 : ℚ) * k))
    let bv := clamp255 (jsRound ((a.2.2 : ℚ) * (1 - k) + (b.2.2 : ℚ) * k))
    some (rgbToHex r.toNat g.toNat bv.toNat)
  | _, _ => none

/-- Total version of `mixColors` used by the renderer, with the JS NaN
marker as the malformed-input value. -/
def mixColorsStr (hexA hexB : String) (k : ℚ) : String :=
  (mixColors hexA hexB k).getD "#NaNNaNNaN"

/-- Visual configuration for the SVG card (`SvgConfig`). JS numbers are
rationals; the optional embedded-font fields mirror the optional TS fields. -/
structure SvgConfig where
  width : ℚ
  height : ℚ
  cardBackground : String
  cardBorder : String
  textPrimary : String
  textSecondary : String
  textMuted : String
  albumSize : ℚ
  borderRadius : ℚ
  albumPosition : String
  textAlign : String
  showStatus : Bool
  showTitle : Bool
  showArtist : Bool
  showAlbum : Bool
  fontTitleFamily : String
  fontBodyFamily : String
  fontTitleFile : String
  fontBodyFile : String
  fontFallback : String
  fontTitleDataUrl : Option String := none
  fontBodyDataUrl : Option String := none
  fontTitleFormat : Option String := none
  fontBodyFormat : Option String := none
deriving Repr, DecidableEq

/-- `defaultSvgConfig` (src/unnamed/part_007 lines 82-103). -/
def defaultSvgConfig : SvgConfig where
  width := 800
  height := 200
  cardBackground := "#18181b"
  cardBorder := "#27272a"
  textPrimary := "#fafafa"
  textSecondary := "#cbd5e1"
  textMuted := "#94a3b8"
  albumSize := 150
  borderRadius := 16
  albumPosition := "left"
  textAlign := "left"
  showStatus := true
  showTitle := true
  showArtist := true
  showAlbum := true
  fontTitleFamily := "DotGothic16"
  fontBodyFamily := "Space Mono"
  fontTitleFile := "DotGothic16-Regular.ttf"
  fontBodyFile := "SpaceMono-Regular.ttf"
  fontFallback := apos ++ "Segoe UI" ++ apos ++ ", sans-serif"

/-- Recognized query parameters of the widget endpoints, each as the raw
string value when the parameter is present. -/
structure QueryParams where
  theme : Option String := none
  position : Option String := none
  align : Option String := none
  showStatus : Option String := none
  showTitle : Option String := none
  showArtist : Option String := none
  showAlbum : Option String := none
  fontTitle : Option String := none
  fontBody : Option String := none
  fontTitleFamily : Option String := none
  fontBodyFamily : Option String := none

/-- A request with no query string. -/
def emptyParams : QueryParams := {}

def isAsciiDigit (c : Char) : Bool := '0' ≤ c && c ≤ '9'

def isAsciiLetter (c : Char) : Bool := ('a' ≤ c && c ≤ 'z') || ('A' ≤ c && c ≤ 'Z')

/-- The THEME_NAME_PATTERN regex (letters, digits, underscore, dash;
case-insensitive; nonempty). -/
def themeNameOk (s : String) : Bool :=
  !(s.data.isEmpty) &&
    s.data.all (fun c => isAsciiLetter c || isAsciiDigit c || c == '_' || c == '-')

/-- The FONT_FILE_PATTERN regex (also allows a dot). -/
def fontFileOk (s : String) : Bool :=
  !(s.data.isEmpty) &&
    s.data.all (fun c => isAsciiLetter c || isAsciiDigit c || c == '.' || c == '_' || c == '-')

/-- The FONT_FAMILY_PATTERN regex (also allows a space). -/
def fontFamilyOk (s : String) : Bool :=
  !(s.data.isEmpty) &&
    s.data.all (fun c => isAsciiLetter c || isAsciiDigit c || c == ' ' || c == '_' || c == '-')

/-- `parseBooleanParam` (src/unnamed/part_004 lines 144-150). -/
def parseBooleanParam (v : Option String) : Option Bool :=
  match v with
  | none => none
  | some s =>
    if s = emptyS then none
    else
      let normalized := (trimChars s).toLower
      if normalized = "1" ∨ normalized = "true" then some true
      else if normalized = "0" ∨ normalized = "false" then some false
      else none

/-- `parseTextAlign` (src/unnamed/part_004 lines 152-160); the British
spelling centre is accepted for center. -/
def parseTextAlign (v : Option String) : Option String :=
  match v with
  | none => none
  | some s =>
    if s = emptyS then none
    else
      let normalized := (trimChars s).toLower
      if normalized = "left" then some ("left")
      else if normalized = "right" then some ("right")
      else if normalized = "center" ∨ normalized = "centre" then some ("center")
      else none

/-- Strip a final dot-extension, as the regex replace of a trailing
dot-plus-non-dots does; a name with no dot, or ending in a dot, is kept. -/
def stripLastExt (s : String) : String :=
  let rev := s.data.reverse
  let after := rev.takeWhile (fun c => c ≠ '.')
  if after.length = rev.length then s
  else if after.length = 0 then s
  else String.mk ((rev.drop (after.length + 1)).reverse)

/-- Replace each run of underscores and dashes by a single space, as the
global regex replace inside `inferFontFamily` does. -/
def dashCollapse : List Char → List Char
  | [] => []
  | c :: cs =>
    if c = '_' ∨ c = '-' then
      ' ' :: dashCollapse (cs.dropWhile (fun x => decide (x = '_' ∨ x = '-')))
    else c :: dashCollapse cs
  termination_by l => l.length
  decreasing_by
  · simp only [List.length_cons]
    have := (List.dropWhile_sublist (l := cs) (fun x => decide (x = '_' ∨ x = '-'))).length_le
    omega
  · simp only [List.length_cons]
    omega

/-- `inferFontFamily` (src/unnamed/part_004 lines 162-165). -/
def inferFontFamily (fileName : String) : String :=
  let base := stripLastExt fileName
  orStr (trimChars (String.mk (dashCollapse base.data))) base

/-- `parseFontFile` (src/unnamed/part_004 lines 167-172). -/
def parseFontFile (v : Option String) : Option String :=
  match v with
  | none => none
  | some s =>
    if s = emptyS then none
    else
      let normalized := trimChars s
      if normalized = emptyS then none
      else if fontFileOk normalized then some normalized
      else none

/-- `parseFontFamily` (src/unnamed/part_004 lines 174-179). -/
def parseFontFamily (v : Option String) : Option String :=
  match v with
  | none => none
  | some s =>
    if s = emptyS then none
    else
      let normalized := trimChars s
      if normalized = emptyS then none
      else if fontFamilyOk normalized then some normalized
      else none

/-- `buildSvgConfig` (src/unnamed/part_004 lines 206-254): layered
construction defaults ← theme ← query overrides, then font data resolution.
Theme and font loading are file-system effects, passed as functions; a
loader returning none models a missing or invalid theme or font. The spread
over the validated theme replaces every base field, so it is modelled as
`Option.getD` against the defaults. -/
def buildSvgConfig (loadTheme : String → Option SvgConfig)
    (loadFontData : String → Option (String × String)) (params : QueryParams) : SvgConfig :=
  let themeParam := orStr (params.theme.getD emptyS) ("default")
  let themeName := if themeNameOk themeParam then themeParam else ("default")
  let theme := loadTheme themeName
  let albumPosition : Option String :=
    match params.position with
    | some p =>
      if p = "right" then some ("right")
      else if p = "left" then some ("left")
      else none
    | none => none
  let textAlign := parseTextAlign params.align
  let showStatus := parseBooleanParam params.showStatus
  let showTitle := parseBooleanParam params.showTitle
  let showArtist := parseBooleanParam params.showArtist
  let showAlbum := parseBooleanParam params.showAlbum
  let fontTitleFile := parseFontFile params.fontTitle
  let fontBodyFile := parseFontFile params.fontBody
  let fontTitleFamilyParam := parseFontFamily params.fontTitleFamily
  let fontBodyFamilyParam := parseFontFamily params.fontBodyFamily
  let fontTitleFamily := fontTitleFamilyParam.or (fontTitleFile.map inferFontFamily)
  let fontBodyFamily := fontBodyFamilyParam.or (fontBodyFile.map inferFontFamily)
  let base := theme.getD defaultSvgConfig
  let baseConfig : SvgConfig :=
    { base with
      albumPosition := albumPosition.getD base.albumPosition
      textAlign := textAlign.getD base.textAlign
      showStatus := showStatus.getD base.showStatus
      showTitle := showTitle.getD base.showTitle
      showArtist := showArtist.getD base.showArtist
      showAlbum := showAlbum.getD base.showAlbum
      fontTitleFile := fontTitleFile.getD base.fontTitleFile
      fontBodyFile := fontBodyFile.getD base.fontBodyFile
      fontTitleFamily := fontTitleFamily.getD base.fontTitleFamily
      fontBodyFamily := fontBodyFamily.getD base.fontBodyFamily }
  let titleFont := loadFontData baseConfig.fontTitleFile
  let bodyFont := loadFontData baseConfig.fontBodyFile
  { baseConfig with
    fontTitleDataUrl := titleFont.map Prod.fst
    fontBodyDataUrl := bodyFont.map Prod.fst
    fontTitleFormat := titleFont.map Prod.snd
    fontBodyFormat := bodyFont.map Prod.snd }

/-- The fields of a render configuration that the §6 default list names. -/
def coreFields (c : SvgConfig) :
    ℚ × ℚ × ℚ × ℚ × String × String × String × String × String × String ×
      Bool × Bool × Bool × Bool :=
  (c.width, c.height, c.albumSize, c.borderRadius, c.textPrimary, c.textSecondary,
   c.textMuted, c.cardBorder, c.albumPosition, c.textAlign,
   c.showStatus, c.showTitle, c.showArtist, c.showAlbum)

/-! ## Text layout helpers (src/unnamed/part_006: escapeXml, truncateText,
estimateTextWidth) and the title hash (hashString) -/

/-- Replacement for one character under `escapeXml`. -/
def escapeXmlChar (c : Char) : List Char :=
  if c = '&' then ("&amp;").data
  else if c = '<' then ("&lt;").data
  else if c = '>' then ("&gt;").data
  else if c = '"' then ("&quot;").data
  else if c = Char.ofNat 39 then ("&apos;").data
  else [c]

/-- `escapeXml` (src/unnamed/part_006 lines 7-14): the source applies five
global replaces with the ampersand first, which is equivalent to this single
per-character pass. -/
def escapeXml (text : String) : String :=
  String.mk ((text.data.map escapeXmlChar).flatten)

/-- `truncateText` (src/unnamed/part_006 lines 23-26). -/
def truncateText (text : String) (maxLength : ℕ) : String :=
  if text.data.length ≤ maxLength then text
  else String.mk (text.data.take (maxLength - 3)) ++ "..."

/-- `estimateTextWidth` (src/unnamed/part_006 lines 34-36). -/
def estimateTextWidth (text : String) (fontSize : ℚ) : ℚ :=
  (text.data.length : ℚ) * (fontSize * (55 / 100))

/-- Signed 32-bit wraparound, the effect of `| 0`. -/
def wrap32 (n : ℤ) : ℤ := (n + 2 ^ 31) % 2 ^ 32 - 2 ^ 31

/-- One step of `hashString`: `hash = ((hash << 5) - hash + code) | 0`, with
the shift itself a 32-bit operation. -/
def hashStep (hash : ℤ) (code : ℕ) : ℤ := wrap32 (wrap32 (hash * 32) - hash + code)

/-- `hashString` (src/unnamed/part_006 lines 49-55): 31-based rolling hash
with 32-bit wraparound, absolute value at the end. -/
def hashString (input : String) : ℤ :=
  ((input.data.foldl (fun h c => hashStep h c.toNat) 0).natAbs : ℤ)

/-! ## Card renderer (src/svg/icons.ts: generateMusicNotePlaceholder and
generateNowPlayingSvg) -/

/-- Number formatting of JS template interpolation, abstracted: the renderer
is proven for every formatting function. -/
def QFmt := ℚ → String

/-- Waveform layer generator abstracted as a function of color, opacity,
startX, endX, baseY, height, seed and duration. `generateWaveformLayer`
(src/unnamed/part_006) computes its path points with `Math.sin`, an IEEE-754
operation outside this embedding, so the produced markup is opaque here. -/
def WaveFn := String → ℚ → ℚ → ℚ → ℚ → ℚ → ℚ → ℚ → String

/-- `generateMusicNotePlaceholder` (src/svg/icons.ts lines 9-25). -/
def generateMusicNotePlaceholder (fmt : QFmt) (albumX albumY albumSize : ℚ)
    (color : String) : String :=
  let scale := albumSize / 100
  let centerX := albumX + albumSize / 2
  let centerY := albumY + albumSize / 2
  let noteX := centerX - 25 * scale
  let noteY := centerY - 30 * scale
  tpl ["<g transform=\"translate(", fmt noteX, ", ", fmt noteY, ") scale(", fmt scale,
    ")\" opacity=\"0.8\">\n    <!-- Music note (beamed eighth notes) -->\n    <path d=\"M20 60 L20 15 L50 5 L50 50 C50 56 45 60 38 60 C30 60 25 56 25 50 C25 43 30 40 38 40 C42 40 45 41 47 43 L47 20 L23 28 L23 60 C23 66 18 70 10 70 C3 70 0 66 0 60 C0 53 5 50 10 50 C14 50 17 51 20 53 Z\" fill=\"",
    color, "\"/>\n  </g>"]

/-- Staleness: the snapshot is older than five minutes, or absent. -/
def isStaleOf (now : ℚ) (data : Option NowPlayingData) : Bool :=
  match data with
  | none => true
  | some d => decide (now - d.updatedAt > 5 * 60 * 1000)

def isPlayingOf (now : ℚ) (data : Option NowPlayingData) : Bool :=
  (match data with
   | some d => d.status == "playing"
   | none => false) && !(isStaleOf now data)

def isPausedOf (now : ℚ) (data : Option NowPlayingData) : Bool :=
  (match data with
   | some d => d.status == "paused"
   | none => false) && !(isStaleOf now data)

def hasTrackOf (now : ℚ) (data : Option NowPlayingData) : Bool :=
  data.isSome && (isPlayingOf now data || isPausedOf now data || isStaleOf now data)

/-- `data?.colors?.dominant || config.cardBorder`. -/
def dominantColorOf (data : Option NowPlayingData) (config : SvgConfig) : String :=
  orStr (((data.bind (fun d => d.colors)).map ColorPalette.dominant).getD emptyS)
    config.cardBorder

/-- `data?.colors?.accent || "#22c55e"`. -/
def accentColorOf (data : Option NowPlayingData) : String :=
  orStr (((data.bind (fun d => d.colors)).map ColorPalette.accent).getD emptyS) ("#22c55e")

/-- `data?.colors?.highlight || mixColors(accentColor, "#ffffff", 0.45)`. -/
def highlightOf (data : Option NowPlayingData) : String :=
  orStr (((data.bind (fun d => d.colors)).map ColorPalette.highlight).getD emptyS)
    (mixColorsStr (accentColorOf data) ("#ffffff") (45 / 100))

/-- Fixed horizontal padding of the card layout. -/
def paddingC : ℚ := 26

def albumPositionOf (config : SvgConfig) : String := orStr config.albumPosition ("left")

def textAlignOf (config : SvgConfig) : String := orStr config.textAlign ("left")

def albumXOf (config : SvgConfig) : ℚ :=
  if albumPositionOf config = "right" then config.width - paddingC - config.albumSize
  else paddingC

def albumYOf (config : SvgConfig) : ℚ := (config.height - config.albumSize) / 2

def textAreaLeftOf (config : SvgConfig) : ℚ :=
  if albumPositionOf config = "right" then paddingC
  else albumXOf config + config.albumSize + 22

def textAreaRightOf (config : SvgConfig) : ℚ :=
  if albumPositionOf config = "right" then albumXOf config - 22
  else config.width - paddingC

def textAreaWidthOf (config : SvgConfig) : ℚ :=
  max 0 (textAreaRightOf config - textAreaLeftOf config)

def textAnchorOf (config : SvgConfig) : String :=
  if textAlignOf config = "right" then "end"
  else if textAlignOf config = "center" then "middle"
  else "start"

def textXOf (config : SvgConfig) : ℚ :=
  if textAlignOf config = "right" then textAreaRightOf config
  else if textAlignOf config = "center" then textAreaLeftOf config + textAreaWidthOf config / 2
  else textAreaLeftOf config

/-- The width of the title clip rectangle equals the text area width. -/
def titleClipWidthOf (config : SvgConfig) : ℚ := textAreaWidthOf config

/-- Per-line character budget: `Math.max(10, Math.floor(textAreaWidth /
(fontSize * 0.55)))`. -/
def maxCharsFor (config : SvgConfig) (fontSize : ℚ) : ℕ :=
  (max 10 (Rat.floor (textAreaWidthOf config / (fontSize * (55 / 100))))).toNat

/-- The scroll decision (src/svg/icons.ts lines 102-103): never scroll with
centered alignment, and otherwise scroll exactly when the estimated title
width exceeds the positive clip width. -/
def titleScrollNeededOf (config : SvgConfig) (titleText : String) : Bool :=
  !(textAlignOf config == "center") && decide (titleClipWidthOf config > 0) &&
    decide (estimateTextWidth titleText 24 > titleClipWidthOf config)

/-- `titleScrollDistance = Math.max(titleTextWidth + titleGap, titleClipWidth
+ titleGap)` with a gap of 36 and title font size 24. -/
def titleScrollDistanceOf (config : SvgConfig) (titleText : String) : ℚ :=
  max (estimateTextWidth titleText 24 + 36) (titleClipWidthOf config + 36)

def fontFallbackOf (config : SvgConfig) : String := orStr config.fontFallback ("sans-serif")

def fontTitleFamilyOf (config : SvgConfig) : String :=
  if config.fontTitleFamily = emptyS then fontFallbackOf config
  else apos ++ config.fontTitleFamily ++ apos ++ ", " ++ fontFallbackOf config

def fontBodyFamilyOf (config : SvgConfig) : String :=
  if config.fontBodyFamily = emptyS then fontFallbackOf config
  else apos ++ config.fontBodyFamily ++ apos ++ ", " ++ fontFallbackOf config

/-- One @font-face CSS block of the style section. -/
def fontFaceBlock (fam dataUrl format : String) : String :=
  tpl ["@font-face \x7b\n  font-family: ", apos, fam, apos, ";\n  src: url(", dataUrl,
    ") format(", apos, format, apos,
    ");\n  font-weight: 400;\n  font-style: normal;\n  font-display: swap;\n\x7d"]

/-- `[faceA, faceB].filter(Boolean).join("\n")`. -/
def joinNL : List String → String
  | [] => emptyS
  | [s] => s
  | s :: rest => s ++ "\n" ++ joinNL rest

def fontFacesOf (config : SvgConfig) : String :=
  let face1 :=
    if truthyOptStr config.fontTitleDataUrl && !(config.fontTitleFamily == emptyS) then
      fontFaceBlock config.fontTitleFamily (config.fontTitleDataUrl.getD emptyS)
        (orStr (config.fontTitleFormat.getD emptyS) ("truetype"))
    else emptyS
  let face2 :=
    if truthyOptStr config.fontBodyDataUrl && !(config.fontBodyFamily == emptyS) then
      fontFaceBlock config.fontBodyFamily (config.fontBodyDataUrl.getD emptyS)
        (orStr (config.fontBodyFormat.getD emptyS) ("truetype"))
    else emptyS
  joinNL ([face1, face2].filter (fun s => !(s == emptyS)))

def styleBlockOf (config : SvgConfig) : String :=
  if fontFacesOf config = emptyS then emptyS
  else "<style>" ++ fontFacesOf config ++ "</style>"

/-- The scrolling title markup (src/svg/icons.ts lines 253-265): two text
nodes carrying the escaped title, the second offset by the scroll distance,
under a looping translate animation of fixed 15s duration. -/
def scrollTitleMarkup (fmt : QFmt) (textAreaLeft titleScrollDistance titleY titleFontSize : ℚ)
    (textPrimary fontTitleFam title : String) : String :=
  tpl ["\n    <g clip-path=\"url(#titleClip)\">\n      <g>\n        <text x=\"",
    fmt textAreaLeft, "\" y=\"", fmt titleY, "\" fill=\"", textPrimary,
    "\" font-size=\"", fmt titleFontSize,
    "\" font-weight=\"600\" filter=\"url(#textGlow)\" font-family=\"", fontTitleFam,
    "\">\n          ", escapeXml title,
    "\n        </text>\n        <text x=\"", fmt (textAreaLeft + titleScrollDistance),
    "\" y=\"", fmt titleY, "\" fill=\"", textPrimary, "\" font-size=\"", fmt titleFontSize,
    "\" font-weight=\"600\" filter=\"url(#textGlow)\" font-family=\"", fontTitleFam,
    "\">\n          ", escapeXml title,
    "\n        </text>\n        <animateTransform attributeName=\"transform\" type=\"translate\" from=\"0 0\" to=\"-",
    fmt titleScrollDistance,
    " 0\" dur=\"15s\" repeatCount=\"indefinite\" />\n      </g>\n    </g>\n    "]

/-- The static title markup (src/svg/icons.ts lines 267-270): one text node
with the title truncated to its character budget. -/
def staticTitleMarkup (fmt : QFmt) (textX titleY titleFontSize : ℚ)
    (textPrimary textAnchor fontTitleFam title : String) (titleMaxChars : ℕ) : String :=
  tpl ["\n    <text x=\"", fmt textX, "\" y=\"", fmt titleY, "\" fill=\"", textPrimary,
    "\" font-size=\"", fmt titleFontSize,
    "\" font-weight=\"600\" text-overflow=\"ellipsis\" filter=\"url(#textGlow)\" text-anchor=\"",
    textAnchor, "\" font-family=\"", fontTitleFam, "\">\n      ",
    escapeXml (truncateText title titleMaxChars), "\n    </text>\n    "]

/-- The title markup chosen by the scroll decision for a present snapshot. -/
def titleBlockOf (fmt : QFmt) (config : SvgConfig) (d : NowPlayingData) : String :=
  let titleText := orStr d.title emptyS
  if titleScrollNeededOf config titleText then
    scrollTitleMarkup fmt (textAreaLeftOf config) (titleScrollDistanceOf config titleText)
      (albumYOf config + 40) 24 config.textPrimary (fontTitleFamilyOf config) d.title
  else
    staticTitleMarkup fmt (textXOf config) (albumYOf config + 40) 24 config.textPrimary
      (textAnchorOf config) (fontTitleFamilyOf config) d.title (maxCharsFor config 24)

/-- The status pill markup (src/svg/icons.ts lines 240-247), with its text
chosen by the staleness and playing classification. -/
def statusPillOf (fmt : QFmt) (now : ℚ) (data : Option NowPlayingData)
    (config : SvgConfig) : String :=
  tpl ["\n    <!-- Status pill -->\n    <text x=\"", fmt (textXOf config), "\" y=\"",
    fmt (albumYOf config + 18), "\" fill=\"", highlightOf data,
    "\" font-size=\"12\" font-weight=\"700\" letter-spacing=\"0.12em\" filter=\"url(#textGlow)\" text-anchor=\"",
    textAnchorOf config, "\" font-family=\"", fontBodyFamilyOf config, "\">\n      ",
    (if isStaleOf now data then ("LAST PLAYED")
     else if isPlayingOf now data then ("NOW PLAYING")
     else ("PAUSED")),
    "\n    </text>\n    "]

/-- The artist line markup (src/svg/icons.ts lines 274-279). -/
def artistBlockOf (fmt : QFmt) (config : SvgConfig) (d : NowPlayingData) : String :=
  tpl ["\n    <!-- Artist -->\n    <text x=\"", fmt (textXOf config), "\" y=\"",
    fmt (albumYOf config + 76), "\" fill=\"", config.textSecondary, "\" font-size=\"",
    fmt 15, "\" text-anchor=\"", textAnchorOf config, "\" font-family=\"",
    fontBodyFamilyOf config, "\">\n      ",
    escapeXml (truncateText d.artist (maxCharsFor config 15)), "\n    </text>\n    "]

/-- The album line markup (src/svg/icons.ts lines 281-286). -/
def albumBlockOf (fmt : QFmt) (config : SvgConfig) (d : NowPlayingData) : String :=
  tpl ["\n    <!-- Album and status -->\n    <text x=\"", fmt (textXOf config), "\" y=\"",
    fmt (albumYOf config + 90), "\" fill=\"", config.textMuted, "\" font-size=\"",
    fmt 13, "\" text-anchor=\"", textAnchorOf config, "\" font-family=\"",
    fontBodyFamilyOf config, "\">\n      ",
    escapeXml (truncateText d.album (maxCharsFor config 13)), "\n    </text>\n    "]

/-- The empty-state message (src/svg/icons.ts lines 288-295). -/
def nothingBlockOf (fmt : QFmt) (config : SvgConfig) : String :=
  tpl ["\n    <!-- Not playing message -->\n    <text x=\"", fmt (textXOf config),
    "\" y=\"", fmt (config.height / 2), "\" fill=\"", config.textMuted,
    "\" font-size=\"14\" dominant-baseline=\"middle\" text-anchor=\"",
    textAnchorOf config, "\" font-family=\"", fontBodyFamilyOf config,
    "\">\n      Nothing playing right now\n    </text>\n    "]

/-- The hasTrack branch of the text group: the four independently toggleable
lines with their surrounding template whitespace. -/
def trackLinesOf (fmt : QFmt) (now : ℚ) (d : NowPlayingData) (config : SvgConfig) : String :=
  tpl ["\n    ",
    (if config.showStatus then statusPillOf fmt now (some d) config else emptyS),
    "\n\n    ",
    (if config.showTitle then
      tpl ["\n    <!-- Title -->\n    ", titleBlockOf fmt config d, "\n    "]
     else emptyS),
    "\n\n    ",
    (if config.showArtist then artistBlockOf fmt config d else emptyS),
    "\n\n    ",
    (if config.showAlbum then albumBlockOf fmt config d else emptyS),
    "\n    "]

/-- The interpolated text-group content: track lines when a track is shown,
the empty-state message otherwise. -/
def textContentOf (fmt : QFmt) (now : ℚ) (data : Option NowPlayingData)
    (config : SvgConfig) : String :=
  match data with
  | some d =>
    if isPlayingOf now data || isPausedOf now data || isStaleOf now data then
      trackLinesOf fmt now d config
    else nothingBlockOf fmt config
  | none => nothingBlockOf fmt config

/-- The album-art slot: embedded image with border when art is present,
placeholder glyph otherwise (src/svg/icons.ts lines 299-312). -/
def artBlockOf (fmt : QFmt) (now : ℚ) (data : Option NowPlayingData)
    (config : SvgConfig) : String :=
  if hasTrackOf now data && truthyOptStr (data.bind (fun d => d.artBase64)) then
    tpl ["\n  <!-- Album art with rounded corners -->\n  <image x=\"",
      fmt (albumXOf config), "\" y=\"", fmt (albumYOf config), "\" width=\"",
      fmt config.albumSize, "\" height=\"", fmt config.albumSize,
      "\" xlink:href=\"data:image/jpeg;base64,",
      (data.bind (fun d => d.artBase64)).getD emptyS,
      "\" clip-path=\"url(#albumClip)\" preserveAspectRatio=\"xMidYMid slice\" filter=\"url(#glow)\" />\n  <rect x=\"",
      fmt (albumXOf config), "\" y=\"", fmt (albumYOf config), "\" width=\"",
      fmt config.albumSize, "\" height=\"", fmt config.albumSize, "\" rx=\"",
      fmt config.borderRadius, "\" fill=\"none\" stroke=\"", highlightOf data,
      "\" stroke-opacity=\"0.75\" stroke-width=\"3\" filter=\"url(#textGlow)\" />\n  "]
  else
    generateMusicNotePlaceholder fmt (albumXOf config) (albumYOf config)
      config.albumSize (highlightOf data)

/-- `generateNowPlayingSvg` (src/svg/icons.ts lines 39-316). The clock, the
number formatter of template interpolation, and the waveform layer generator
are explicit parameters; everything else follows the source template chunk
by chunk. -/
def generateNowPlayingSvg (fmt : QFmt) (wave : WaveFn) (now : ℚ)
    (data : Option NowPlayingData) (config : SvgConfig) : String :=
  let isPlaying := isPlayingOf now data
  let dominantColor := dominantColorOf data config
  let accentColor := accentColorOf data
  let baseDark := mixColorsStr dominantColor ("#050505") (82 / 100)
  let midDark := mixColorsStr dominantColor ("#0d0f12") (7 / 10)
  let highlight := highlightOf data
  let width := config.width
  let height := config.height
  let albumSize := config.albumSize
  let albumX := albumXOf config
  let albumY := albumYOf config
  let textAreaLeft := textAreaLeftOf config
  let barsStartX : ℚ := 2
  let barsEndX := width - 2
  let waveBaseY := height - 2
  let waveHeight : ℚ := 170
  let titleText := orStr (((data.map NowPlayingData.title).getD emptyS)) emptyS
  let titleSeed : ℚ := (hashString (orStr titleText ("tauon")) : ℚ)
  tpl ["<?xml version=\"1.0\" encoding=\"UTF-8\"?>\n<svg width=\"", fmt width,
    "\" height=\"", fmt height, "\" viewBox=\"0 0 ", fmt width, " ", fmt height,
    "\" xmlns=\"http://www.w3.org/2000/svg\" xmlns:xlink=\"http://www.w3.org/1999/xlink\">\n  <defs>\n    ",
    styleBlockOf config,
    "\n    <linearGradient id=\"cardGradient\" x1=\"0\" y1=\"0\" x2=\"0\" y2=\"1\">\n      <stop offset=\"0%\" stop-color=\"",
    baseDark, "\" />\n      <stop offset=\"60%\" stop-color=\"", midDark,
    "\" />\n      <stop offset=\"100%\" stop-color=\"", baseDark,
    "\" />\n    </linearGradient>\n    <linearGradient id=\"barsFade\" x1=\"0\" y1=\"0\" x2=\"0\" y2=\"1\">\n      <stop offset=\"0%\" stop-color=\"",
    highlight, "\" stop-opacity=\"1\" />\n      <stop offset=\"100%\" stop-color=\"",
    accentColor,
    "\" stop-opacity=\"0.3\" />\n    </linearGradient>\n    <clipPath id=\"albumClip\">\n      <rect x=\"",
    fmt albumX, "\" y=\"", fmt albumY, "\" width=\"", fmt albumSize, "\" height=\"",
    fmt albumSize, "\" rx=\"", fmt config.borderRadius,
    "\" />\n    </clipPath>\n    <clipPath id=\"cardClip\" clipPathUnits=\"userSpaceOnUse\">\n      <rect x=\"2\" y=\"2\" width=\"",
    fmt (width - 4), "\" height=\"", fmt (height - 4), "\" rx=\"",
    fmt (config.borderRadius - 2),
    "\" />\n    </clipPath>\n    <clipPath id=\"titleClip\" clipPathUnits=\"userSpaceOnUse\">\n      <rect x=\"",
    fmt textAreaLeft, "\" y=\"", fmt (albumY + 34), "\" width=\"",
    fmt (titleClipWidthOf config),
    "\" height=\"26\" />\n    </clipPath>\n    <filter id=\"glow\" x=\"-50%\" y=\"-50%\" width=\"200%\" height=\"200%\">\n      <feDropShadow dx=\"0\" dy=\"0\" stdDeviation=\"8\" flood-color=\"",
    highlight,
    "\" flood-opacity=\"0.65\" />\n      <feDropShadow dx=\"0\" dy=\"0\" stdDeviation=\"16\" flood-color=\"",
    highlight,
    "\" flood-opacity=\"0.25\" />\n    </filter>\n    <filter id=\"textGlow\" x=\"-50%\" y=\"-50%\" width=\"200%\" height=\"200%\">\n      <feDropShadow dx=\"0\" dy=\"0\" stdDeviation=\"4\" flood-color=\"",
    highlight,
    "\" flood-opacity=\"0.6\" />\n    </filter>\n  </defs>\n\n  <!-- Card background with clean rounded border -->\n  <rect width=\"",
    fmt width, "\" height=\"", fmt height, "\" rx=\"", fmt config.borderRadius,
    "\" fill=\"", midDark, "\" />\n  <rect x=\"2\" y=\"2\" width=\"", fmt (width - 4),
    "\" height=\"", fmt (height - 4), "\" rx=\"", fmt (config.borderRadius - 2),
    "\" fill=\"url(#cardGradient)\" />\n\n  <!-- Background waveform -->\n  <g fill=\"url(#barsFade)\" opacity=\"0.4\" clip-path=\"url(#cardClip)\">\n    ",
    wave highlight (28 / 100) barsStartX barsEndX waveBaseY waveHeight
      (titleSeed * (3 / 100)) 8,
    "\n    ",
    wave highlight (18 / 100) barsStartX barsEndX waveBaseY (waveHeight * (7 / 10))
      (titleSeed * (5 / 100) + 41 / 10) 12,
    "\n  </g>\n\n  ",
    (if isPlaying then
      tpl ["<g fill=\"url(#barsFade)\" opacity=\"0.45\" clip-path=\"url(#cardClip)\">",
        wave highlight (65 / 100) barsStartX barsEndX waveBaseY
          (waveHeight * (85 / 100)) (titleSeed * (8 / 100) + 82 / 10) 5,
        "</g>"]
     else emptyS),
    "\n\n  <!-- Text content -->\n  <g font-family=\"", fontBodyFamilyOf config, "\">\n    ",
    textContentOf fmt now data config,
    "\n  </g>\n\n  ",
    artBlockOf fmt now data config,
    "\n</svg>"]


/-! ## HTTP server (src/unnamed/part_004: validateAuth, storeNowPlaying,
handlePostNowPlaying, handleGetSvg, handleGetNowPlaying, handleGetPreview,
handleRequest) -/

/-- Parsed JSON values, the result of `req.json()`; the stored slot holds
such a value verbatim. -/
inductive Json where
  | null : Json
  | bool (b : Bool) : Json
  | num (q : ℚ) : Json
  | str (s : String) : Json
  | arr (xs : List Json) : Json
  | obj (fields : List (String × Json)) : Json

/-- An inbound HTTP request: method, path, optional Authorization header,
the result of parsing the body as JSON (none when parsing throws), and the
recognized query parameters. -/
structure ServerRequest where
  method : String
  path : String
  authHeader : Option String
  bodyJson : Option Json := none
  query : QueryParams := {}

/-- An HTTP response: status, headers in order, body text. -/
structure HttpResponse where
  status : ℕ
  headers : List (String × String)
  body : String

/-- Split a character list at every occurrence of a separator, keeping
empty segments, as `s.split(sep)` does for a one-character separator. -/
def splitChars (sep : Char) : List Char → List (List Char)
  | [] => [[]]
  | c :: cs =>
    let rest := splitChars sep cs
    if c = sep then [] :: rest
    else
      match rest with
      | r :: rs => (c :: r) :: rs
      | [] => [[c]]

/-- `s.split(sep)` for a one-character separator string. -/
def jsSplit (s : String) (sep : Char) : List String := (splitChars sep s.data).map String.mk

/-- `validateAuth` (src/unnamed/part_004 lines 17-23): the Authorization
header must split on a space into exactly Bearer and the configured key. -/
def validateAuth (apiKey : String) (req : ServerRequest) : Bool :=
  match req.authHeader with
  | none => false
  | some auth =>
    match jsSplit auth ' ' with
    | [p0, p1] => p0 == "Bearer" && p1 == apiKey
    | _ => false

/-- `handlePostNowPlaying` (src/unnamed/part_004 lines 37-61) together with
`storeNowPlaying`: 401 on failed auth, 400 on a body that fails JSON
parsing, otherwise 200 with the parsed value written verbatim to the single
stored slot. Returns the response and the new slot. -/
def handlePostNowPlaying (apiKey : String) (req : ServerRequest)
    (store : Option Json) : HttpResponse × Option Json :=
  if !(validateAuth apiKey req) then
    (⟨401, [(("Content-Type"), ("application/json"))],
      ("\x7b\"error\":\"Unauthorized\"\x7d")⟩, store)
  else
    match req.bodyJson with
    | some data =>
      (⟨200, [(("Content-Type"), ("application/json"))],
        ("\x7b\"success\":true\x7d")⟩, some data)
    | none =>
      (⟨400, [(("Content-Type"), ("application/json"))],
        ("\x7b\"error\":\"Invalid JSON\"\x7d")⟩, store)

/-- `handleGetSvg` (src/unnamed/part_004 lines 256-269): render the stored
snapshot with the query-derived configuration. -/
def handleGetSvg (fmt : QFmt) (wave : WaveFn) (now : ℚ)
    (loadTheme : String → Option SvgConfig)
    (loadFontData : String → Option (String × String))
    (stored : Option NowPlayingData) (req : ServerRequest) : HttpResponse :=
  let config := buildSvgConfig loadTheme loadFontData req.query
  let svg := generateNowPlayingSvg fmt wave now stored config
  ⟨200, [(("Content-Type"), ("image/svg+xml")), (("Cache-Control"), ("s-maxage=1"))], svg⟩

/-- The preview page (src/unnamed/part_004 lines 287-347) embedding the SVG. -/
def previewHtml (svg : String) : String :=
  tpl ["<!doctype html>\n<html lang=\"en\">\n  <head>\n    <meta charset=\"utf-8\" />\n    <meta name=\"viewport\" content=\"width=device-width, initial-scale=1\" />\n    <title>Now Playing Preview</title>\n    <style>\n      body \x7b\n        margin: 0;\n        padding: 32px;\n        font-family: ui-sans-serif, system-ui, -apple-system, \"Segoe UI\", sans-serif;\n        background: #0b0c0f;\n        color: #e5e7eb;\n      \x7d\n      .container \x7b\n        max-width: 900px;\n        margin: 0 auto;\n      \x7d\n      .card \x7b\n        background: #0f1115;\n        border: 1px solid #1f2430;\n        border-radius: 16px;\n        padding: 24px;\n        box-shadow: 0 12px 30px rgba(0, 0, 0, 0.35);\n      \x7d\n      .widget \x7b\n        margin-top: 24px;\n        width: 100%;\n        display: flex;\n        justify-content: center;\n      \x7d\n      .widget svg \x7b\n        display: block;\n        width: 800px;\n        height: auto;\n      \x7d\n      p \x7b\n        line-height: 1.7;\n        color: #cbd5f5;\n      \x7d\n    </style>\n  </head>\n  <body>\n    <div class=\"container\">\n      <div class=\"card\">\n        <p>\n          Lorem ipsum dolor sit amet, consectetur adipiscing elit. Integer sed\n          tincidunt lorem. Donec semper, magna in pretium consequat, lorem orci\n          pharetra neque, sed feugiat sapien mi sed urna. Mauris lacinia justo\n          a mi consequat, a luctus lorem suscipit.\n        </p>\n        <p>\n          Pellentesque habitant morbi tristique senectus et netus et malesuada\n          fames ac turpis egestas. Nulla facilisi. Fusce at lectus erat. Sed\n          posuere lorem eget nisl interdum, id condimentum felis tincidunt.\n        </p>\n        <div class=\"widget\">",
    svg,
    "</div>\n      </div>\n    </div>\n  </body>\n</html>"]

/-- `handleGetPreview` (src/unnamed/part_004 lines 282-356). -/
def handleGetPreview (fmt : QFmt) (wave : WaveFn) (now : ℚ)
    (loadTheme : String → Option SvgConfig)
    (loadFontData : String → Option (String × String))
    (stored : Option NowPlayingData) (req : ServerRequest) : HttpResponse :=
  let config := buildSvgConfig loadTheme loadFontData req.query
  let svg := generateNowPlayingSvg fmt wave now stored config
  ⟨200, [(("Content-Type"), ("text/html; charset=utf-8")), (("Cache-Control"), ("no-cache"))],
    previewHtml svg⟩

/-- The permissive CORS headers set on every response. -/
def corsHeaders : List (String × String) :=
  [(("Access-Control-Allow-Origin"), ("*")),
   (("Access-Control-Allow-Methods"), ("GET, POST, OPTIONS")),
   (("Access-Control-Allow-Headers"), ("Authorization, Content-Type"))]

/-- `Headers.set`: replace the first entry with the given name, appending
when absent. -/
def setHeader : List (String × String) → String → String → List (String × String)
  | [], k, v => [(k, v)]
  | (k0, v0) :: rest, k, v =>
    if k0 == k then (k, v) :: rest else (k0, v0) :: setHeader rest k v

/-- Header lookup by name. -/
def getHeader : List (String × String) → String → Option String
  | [], _ => none
  | (k0, v0) :: rest, k => if k0 == k then some v0 else getHeader rest k

/-- The final rewrapping of a response with the CORS headers set
(src/unnamed/part_004 lines 405-414): status and body are preserved. -/
def corsWrap (r : HttpResponse) : HttpResponse :=
  { r with headers := corsHeaders.foldl (fun hs kv => setHeader hs kv.1 kv.2) r.headers }

/-- The capability listing returned at the root path. -/
def rootListing : String :=
  "\x7b\"endpoints\":\x7b\"widget\":\"/now-playing.svg\",\"preview\":\"/preview\",\"update\":\"POST /api/now-playing\",\"debug\":\"/api/now-playing\"\x7d\x7d"

/-- `handleRequest` (src/unnamed/part_004 lines 358-422): OPTIONS preflight,
then the path and method dispatch, then the CORS rewrap. The KV slot is
threaded as `storedRaw` (the verbatim stored JSON, read and written by the
api routes) and `stored` (the same slot as the snapshot the render routes
read); `stringify` is JSON serialization of the slot for the debug route.
Returns the response and the slot after the request. -/
def handleRequest (apiKey : String) (fmt : QFmt) (wave : WaveFn) (now : ℚ)
    (loadTheme : String → Option SvgConfig)
    (loadFontData : String → Option (String × String))
    (stored : Option NowPlayingData) (storedRaw : Option Json)
    (stringify : Option Json → String) (req : ServerRequest) :
    HttpResponse × Option Json :=
  if req.method == "OPTIONS" then
    (⟨204, corsHeaders, emptyS⟩, storedRaw)
  else
    let pr : HttpResponse × Option Json :=
      if req.path == "/now-playing.svg" && req.method == "GET" then
        (handleGetSvg fmt wave now loadTheme loadFontData stored req, storedRaw)
      else if req.path == "/preview" && req.method == "GET" then
        (handleGetPreview fmt wave now loadTheme loadFontData stored req, storedRaw)
      else if req.path == "/api/now-playing" && req.method == "POST" then
        handlePostNowPlaying apiKey req storedRaw
      else if req.path == "/api/now-playing" && req.method == "GET" then
        (⟨200, [(("Content-Type"), ("application/json")), (("Cache-Control"), ("no-cache"))],
          stringify storedRaw⟩, storedRaw)
      else if req.path == "/" then
        (⟨200, [(("Content-Type"), ("application/json"))], rootListing⟩, storedRaw)
      else
        (⟨404, [(("Content-Type"), ("application/json"))],
          ("\x7b\"error\":\"Not found\"\x7d")⟩, storedRaw)
    (corsWrap pr.1, pr.2)

/-! ## Theorems -/

theorem strIn_refl (p : String) : StrIn p p := List.infix_refl _

theorem strIn_append_left {p s : String} (t : String) (h : StrIn p s) :
    StrIn p (s ++ t) := by
  unfold StrIn at *
  have hd : (s ++ t).data = s.data ++ t.data := rfl
  rw [hd]
  exact h.trans (List.prefix_append s.data t.data).isInfix

theorem strIn_append_right {p s : String} (t : String) (h : StrIn p s) :
    StrIn p (t ++ s) := by
  unfold StrIn at *
  have hd : (t ++ s).data = t.data ++ s.data := rfl
  rw [hd]
  exact h.trans (List.suffix_append t.data s.data).isInfix

theorem strIn_trans {p q r : String} (h1 : StrIn p q) (h2 : StrIn q r) :
    StrIn p r := List.IsInfix.trans h1 h2

theorem strIn_tpl_of_mem {p : String} {parts : List String}
    (h : p ∈ parts) : StrIn p (tpl parts) := by
  induction parts with
  | nil => cases h
  | cons hd tl ih =>
    rw [List.mem_cons] at h
    rcases h with h | h
    · subst h
      exact strIn_append_left (tpl tl) (strIn_refl p)
    · exact strIn_append_right hd (ih h)

/-! ## Data model (src/types.ts) -/

/-- Claim C1: starting the admission filter from empty memory, with every
admitted observation successfully published, the observation sequence with
track ids [5,5,5,7,7] and statuses [playing,playing,paused,paused,paused]
publishes exactly at indices 0, 2 and 3, and not at indices 1 and 4. -/
theorem admission_sequence_5_5_5_7_7 :
    runPoll initialPollState
      [mkObs 5 "playing", mkObs 5 "playing", mkObs 5 "paused",
       mkObs 7 "paused", mkObs 7 "paused"] =
      [true, false, true, true, false] := by
  decide

/-! ## Poller snapshot assembly (src/poller/index.ts, `poll` lines 52-89) -/

/-- Claim C5: every snapshot assembled by the poller has artBase64 and
colors either both present or both null — never one without the other. -/
theorem snapshot_art_colors_together (status : TauonStatus) (cache : ArtCache)
    (fetchResult : Option ArtResult) (nowMs : ℚ) :
    ((assembleSnapshot status cache fetchResult nowMs).1.artBase64).isSome =
      ((assembleSnapshot status cache fetchResult nowMs).1.colors).isSome := by
  rcases cache with ⟨an, ab, ac⟩
  unfold assembleSnapshot
  cases fetchResult <;> cases ab <;> cases ac <;>
    simp [truthyOptStr] <;> split_ifs <;> simp_all

/-! ## Color math (src/unnamed/part_005: hexToRgb, rgbToHex, mixColors) -/

/-- Hex digit value of a character, as consumed by `parseInt(s, 16)`. -/

theorem jsRound_eq_floor (q : ℚ) : jsRound q = ⌊q + 1 / 2⌋ :=
  (Rat.floor_def' _).trans Rat.floor_def.symm

/-- `Math.max(0, Math.min(255, v))`, the channel clamp inside `mixColors`. -/

theorem hexDigitVal_hexChar : ∀ v : ℕ, v < 16 → hexDigitVal (hexChar v) = some v := by
  decide

theorem hexToRgb_rgbToHex {r g b : ℕ} (hr : r < 256) (hg : g < 256) (hb : b < 256) :
    hexToRgb (rgbToHex r g b) = some (r, g, b) := by
  have h1 : r / 16 < 16 := by omega
  have h2 : g / 16 < 16 := by omega
  have h3 : b / 16 < 16 := by omega
  have h4 : r % 16 < 16 := Nat.mod_lt _ (by omega)
  have h5 : g % 16 < 16 := Nat.mod_lt _ (by omega)
  have h6 : b % 16 < 16 := Nat.mod_lt _ (by omega)
  have hdata : (rgbToHex r g b).data =
      ['#', hexChar (r / 16), hexChar (r % 16), hexChar (g / 16), hexChar (g % 16),
       hexChar (b / 16), hexChar (b % 16)] := rfl
  unfold hexToRgb stripHash
  rw [hdata]
  simp only [removeFirstHash, if_pos rfl, sliceChars]
  simp only [List.drop, List.take, parseHexPair,
    hexDigitVal_hexChar _ h1, hexDigitVal_hexChar _ h2, hexDigitVal_hexChar _ h3,
    hexDigitVal_hexChar _ h4, hexDigitVal_hexChar _ h5, hexDigitVal_hexChar _ h6]
  rw [Nat.div_add_mod r 16, Nat.div_add_mod g 16, Nat.div_add_mod b 16]

theorem jsRound_natCast (n : ℕ) : jsRound (n : ℚ) = n := by
  rw [jsRound_eq_floor, Int.floor_eq_iff]
  push_cast
  constructor <;> norm_num

theorem clamp255_of_le {v : ℤ} (h0 : 0 ≤ v) (h255 : v ≤ 255) : clamp255 v = v := by
  unfold clamp255
  omega

theorem mixColors_zero_eval {A B : String} {a1 a2 a3 b1 b2 b3 : ℕ}
    (hA : hexToRgb A = some (a1, a2, a3)) (hB : hexToRgb B = some (b1, b2, b3))
    (h1 : a1 < 256) (h2 : a2 < 256) (h3 : a3 < 256) :
    mixColors A B 0 = some (rgbToHex a1 a2 a3) := by
  unfold mixColors
  rw [hA, hB]
  simp only []
  rw [show ((a1 : ℚ) * (1 - 0) + (b1 : ℚ) * 0) = (a1 : ℚ) by ring,
    show ((a2 : ℚ) * (1 - 0) + (b2 : ℚ) * 0) = (a2 : ℚ) by ring,
    show ((a3 : ℚ) * (1 - 0) + (b3 : ℚ) * 0) = (a3 : ℚ) by ring,
    jsRound_natCast, jsRound_natCast, jsRound_natCast,
    clamp255_of_le (by omega) (by omega), clamp255_of_le (by omega) (by omega),
    clamp255_of_le (by omega) (by omega)]
  simp

theorem mixColors_one_eval {A B : String} {a1 a2 a3 b1 b2 b3 : ℕ}
    (hA : hexToRgb A = some (a1, a2, a3)) (hB : hexToRgb B = some (b1, b2, b3))
    (h1 : b1 < 256) (h2 : b2 < 256) (h3 : b3 < 256) :
    mixColors A B 1 = some (rgbToHex b1 b2 b3) := by
  unfold mixColors
  rw [hA, hB]
  simp only []
  rw [show ((a1 : ℚ) * (1 - 1) + (b1 : ℚ) * 1) = (b1 : ℚ) by ring,
    show ((a2 : ℚ) * (1 - 1) + (b2 : ℚ) * 1) = (b2 : ℚ) by ring,
    show ((a3 : ℚ) * (1 - 1) + (b3 : ℚ) * 1) = (b3 : ℚ) by ring,
    jsRound_natCast, jsRound_natCast, jsRound_natCast,
    clamp255_of_le (by omega) (by omega), clamp255_of_le (by omega) (by omega),
    clamp255_of_le (by omega) (by omega)]
  simp

/-- Claim C8 (amended): for hex colors written as a hash sign followed by six
lowercase hex digits — exactly the strings `rgbToHex r g b` with channels
below 256 — the blend satisfies the identity laws mix(A,B,0) = A and
mix(A,B,1) = B. -/
theorem mixColors_identity_laws (r g b r' g' b' : ℕ)
    (hr : r < 256) (hg : g < 256) (hb : b < 256)
    (hr' : r' < 256) (hg' : g' < 256) (hb' : b' < 256) :
    mixColors (rgbToHex r g b) (rgbToHex r' g' b') 0 = some (rgbToHex r g b) ∧
      mixColors (rgbToHex r g b) (rgbToHex r' g' b') 1 = some (rgbToHex r' g' b') :=
  ⟨mixColors_zero_eval (hexToRgb_rgbToHex hr hg hb) (hexToRgb_rgbToHex hr' hg' hb') hr hg hb,
   mixColors_one_eval (hexToRgb_rgbToHex hr hg hb) (hexToRgb_rgbToHex hr' hg' hb') hr' hg' hb'⟩

/-- Witness for the amended identity laws at concrete channel values. -/
theorem mixColors_identity_laws_witness :
    mixColors (rgbToHex 170 187 204) (rgbToHex 0 17 34) 0 = some (rgbToHex 170 187 204) ∧
      mixColors (rgbToHex 170 187 204) (rgbToHex 0 17 34) 1 = some (rgbToHex 0 17 34) :=
  mixColors_identity_laws 170 187 204 0 17 34 (by decide) (by decide) (by decide)
    (by decide) (by decide) (by decide)

/-- Counterexample to claim C8 as stated: an uppercase 6-digit hex color is a
valid parse input, yet the blend at ratio 0 returns the lowercase canonical
form rather than the original string. -/
theorem mixColors_identity_fails_uppercase :
    mixColors ("#AABBCC") ("#001122") 0 = some ("#aabbcc") ∧
      mixColors ("#AABBCC") ("#001122") 0 ≠ some ("#AABBCC") := by
  have hA : hexToRgb ("#AABBCC") = some (170, 187, 204) := by decide
  have hB : hexToRgb ("#001122") = some (0, 17, 34) := by decide
  have h : mixColors ("#AABBCC") ("#001122") 0 = some (rgbToHex 170 187 204) :=
    mixColors_zero_eval hA hB (by decide) (by decide) (by decide)
  rw [h]
  constructor
  · decide
  · decide

/-! ## Render configuration (src/unnamed/part_007 `SvgConfig`,
src/unnamed/part_004 `buildSvgConfig` and its parsers) -/

/-- Claim C7: a render configuration built from defaults with no query
overrides (and no default theme file present) carries exactly the literal
defaults: width 800, height 200, albumSize 150, borderRadius 16, textPrimary
fafafa, textSecondary cbd5e1, textMuted 94a3b8, cardBorder 27272a, album
position left, text alignment left, and all four show-flags true. -/
theorem renderconfig_defaults_roundtrip (loadTheme : String → Option SvgConfig)
    (loadFontData : String → Option (String × String))
    (h : loadTheme ("default") = none) :
    coreFields (buildSvgConfig loadTheme loadFontData emptyParams) =
      (800, 200, 150, 16, "#fafafa", "#cbd5e1", "#94a3b8", "#27272a", "left", "left",
        true, true, true, true) ∧
      coreFields (buildSvgConfig loadTheme loadFontData emptyParams) =
        coreFields defaultSvgConfig := by
  constructor <;>
    simp [buildSvgConfig, emptyParams, coreFields, defaultSvgConfig, orStr, emptyS,
      parseTextAlign, parseBooleanParam, parseFontFile, parseFontFamily, themeNameOk,
      isAsciiDigit, isAsciiLetter, h]

/-- Witness for the defaults round-trip with loaders that find no files. -/
theorem renderconfig_defaults_roundtrip_witness :
    coreFields (buildSvgConfig (fun _ => none) (fun _ => none) emptyParams) =
      (800, 200, 150, 16, "#fafafa", "#cbd5e1", "#94a3b8", "#27272a", "left", "left",
        true, true, true, true) ∧
      coreFields (buildSvgConfig (fun _ => none) (fun _ => none) emptyParams) =
        coreFields defaultSvgConfig :=
  renderconfig_defaults_roundtrip (fun _ => none) (fun _ => none) rfl

/-- Claim C2: if the last-sent track id is t and the last-sent status is
"playing", but the last-seen status is "stopped", then a new observation of
track t with status "playing" is admitted again, even though both the track
id and the status match the last-sent values. -/
theorem admission_resume_from_stopped (t : ℤ) :
    shouldUpdate (mkObs t "playing") (some t) (some "playing") (some "stopped") = true := by
  simp [shouldUpdate, mkObs]

theorem orStr_emptyS (s : String) : orStr s emptyS = s := by
  unfold orStr
  split <;> simp_all

theorem strIn_textContent (fmt : QFmt) (wave : WaveFn) (now : ℚ)
    (data : Option NowPlayingData) (config : SvgConfig) :
    StrIn (textContentOf fmt now data config)
      (generateNowPlayingSvg fmt wave now data config) := by
  simp only [generateNowPlayingSvg]
  exact strIn_tpl_of_mem (by simp)

/-- Claim C3: a snapshot whose updatedAt lies ten minutes before the render
time is stale, so with the status line visible the rendered SVG contains the
status pill text LAST PLAYED, whatever the stored status field holds. -/
theorem stale_snapshot_shows_last_played (fmt : QFmt) (wave : WaveFn) (now : ℚ)
    (d : NowPlayingData) (config : SvgConfig)
    (hshow : config.showStatus = true) (hupd : d.updatedAt = now - 600000) :
    StrIn ("LAST PLAYED") (generateNowPlayingSvg fmt wave now (some d) config) := by
  have hstale : isStaleOf now (some d) = true := by
    simp only [isStaleOf, hupd, decide_eq_true_eq]
    have h : now - (now - 600000) = 600000 := by ring
    rw [h]
    norm_num
  have h1 : StrIn ("LAST PLAYED") (statusPillOf fmt now (some d) config) := by
    unfold statusPillOf
    rw [hstale]
    exact strIn_tpl_of_mem (by simp)
  have h2 : StrIn (statusPillOf fmt now (some d) config) (trackLinesOf fmt now d config) := by
    unfold trackLinesOf
    rw [hshow]
    exact strIn_tpl_of_mem (by simp)
  have h3 : textContentOf fmt now (some d) config = trackLinesOf fmt now d config := by
    unfold textContentOf
    rw [hstale]
    simp
  have h4 := strIn_textContent fmt wave now (some d) config
  rw [h3] at h4
  exact strIn_trans (strIn_trans h1 h2) h4

/-- Witness for the stale pill at a concrete snapshot and the defaults. -/
theorem stale_snapshot_shows_last_played_witness :
    StrIn ("LAST PLAYED")
      (generateNowPlayingSvg (fun _ => emptyS) (fun _ _ _ _ _ _ _ _ => emptyS) 600000
        (some { title := ("t"), artist := ("a"), album := ("b"), albumArtist := ("a"),
                trackNumber := emptyS, duration := 0, progress := 0,
                status := ("playing"), artBase64 := none, colors := none,
                updatedAt := 0 }) defaultSvgConfig) :=
  stale_snapshot_shows_last_played _ _ _ _ _ rfl (by norm_num)

/-- Claim C4 (amended): for a snapshot shown as a track with the title line
visible, (a) with left alignment, a positive clip width, and an estimated
title width exceeding the clip width, the title is rendered as the scrolling
markup — two duplicated title text nodes under a looping animated transform —
and that markup with its animateTransform tag appears in the output; (b) with
centered alignment the title is always the static markup instead: a single
text node with the title truncated to its character budget, even when the
estimate exceeds the clip width. The amendment adds the positive-clip-width
condition in (a), which the code requires and the claim omitted. -/
theorem title_scroll_rule (fmt : QFmt) (wave : WaveFn) (now : ℚ)
    (d : NowPlayingData) (config : SvgConfig)
    (hshow : config.showTitle = true)
    (hstatus : d.status = "playing" ∨ d.status = "paused") :
    ((config.textAlign = "left" → 0 < titleClipWidthOf config →
      titleClipWidthOf config < estimateTextWidth d.title 24 →
        titleBlockOf fmt config d =
          scrollTitleMarkup fmt (textAreaLeftOf config)
            (titleScrollDistanceOf config d.title) (albumYOf config + 40) 24
            config.textPrimary (fontTitleFamilyOf config) d.title ∧
        StrIn (scrollTitleMarkup fmt (textAreaLeftOf config)
            (titleScrollDistanceOf config d.title) (albumYOf config + 40) 24
            config.textPrimary (fontTitleFamilyOf config) d.title)
          (generateNowPlayingSvg fmt wave now (some d) config) ∧
        StrIn ("<animateTransform attributeName=\"transform\" type=\"translate\"")
          (generateNowPlayingSvg fmt wave now (some d) config)) ∧
      (config.textAlign = "center" →
        titleBlockOf fmt config d =
          staticTitleMarkup fmt (textXOf config) (albumYOf config + 40) 24
            config.textPrimary (textAnchorOf config) (fontTitleFamilyOf config)
            d.title (maxCharsFor config 24))) := by
  have hbr : (isPlayingOf now (some d) || isPausedOf now (some d) ||
      isStaleOf now (some d)) = true := by
    cases hst : isStaleOf now (some d) with
    | true => simp
    | false => rcases hstatus with h | h <;> simp [isPlayingOf, isPausedOf, h, hst]
  have h3 : textContentOf fmt now (some d) config = trackLinesOf fmt now d config := by
    unfold textContentOf
    rw [hbr]
    simp
  have hchain : StrIn (titleBlockOf fmt config d)
      (generateNowPlayingSvg fmt wave now (some d) config) := by
    have hinner : StrIn (titleBlockOf fmt config d)
        (tpl ["\n    <!-- Title -->\n    ", titleBlockOf fmt config d, "\n    "]) :=
      strIn_tpl_of_mem (by simp)
    have houter : StrIn (tpl ["\n    <!-- Title -->\n    ", titleBlockOf fmt config d, "\n    "])
        (trackLinesOf fmt now d config) := by
      unfold trackLinesOf
      rw [hshow]
      exact strIn_tpl_of_mem (by simp)
    have h4 := strIn_textContent fmt wave now (some d) config
    rw [h3] at h4
    exact strIn_trans (strIn_trans hinner houter) h4
  constructor
  · intro hal hpos hgt
    have htext : textAlignOf config = "left" := by
      simp [textAlignOf, hal, orStr, emptyS]
    have hneed : titleScrollNeededOf config (orStr d.title emptyS) = true := by
      unfold titleScrollNeededOf
      rw [orStr_emptyS, htext]
      simp [hpos, hgt]
    have hblock : titleBlockOf fmt config d =
        scrollTitleMarkup fmt (textAreaLeftOf config)
          (titleScrollDistanceOf config d.title) (albumYOf config + 40) 24
          config.textPrimary (fontTitleFamilyOf config) d.title := by
      rw [orStr_emptyS] at hneed
      unfold titleBlockOf
      simp only [orStr_emptyS, hneed, if_true]
    refine ⟨hblock, ?_, ?_⟩
    · rw [hblock] at hchain
      exact hchain
    · have hanim : StrIn ("<animateTransform attributeName=\"transform\" type=\"translate\"")
          (scrollTitleMarkup fmt (textAreaLeftOf config)
            (titleScrollDistanceOf config d.title) (albumYOf config + 40) 24
            config.textPrimary (fontTitleFamilyOf config) d.title) := by
        unfold scrollTitleMarkup
        refine strIn_trans ?_ (strIn_tpl_of_mem
          (show ("\n        </text>\n        <animateTransform attributeName=\"transform\" type=\"translate\" from=\"0 0\" to=\"-" : String) ∈ _ by simp))
        unfold StrIn
        decide
      rw [hblock] at hchain
      exact strIn_trans hanim hchain
  · intro hal
    have htext : textAlignOf config = "center" := by
      simp [textAlignOf, hal, orStr, emptyS]
    have hneed : titleScrollNeededOf config (orStr d.title emptyS) = false := by
      unfold titleScrollNeededOf
      rw [htext]
      simp
    rw [orStr_emptyS] at hneed
    unfold titleBlockOf
    simp only [orStr_emptyS, hneed, Bool.false_eq_true, if_false]

theorem titleClip_default_pos : (0 : ℚ) < titleClipWidthOf defaultSvgConfig := by
  simp only [titleClipWidthOf, textAreaWidthOf, textAreaRightOf, textAreaLeftOf,
    albumXOf, albumPositionOf, orStr, emptyS, paddingC, defaultSvgConfig]
  simp
  norm_num [lt_max_iff]

theorem titleClip_default_lt :
    titleClipWidthOf defaultSvgConfig <
      estimateTextWidth ("AAAAAAAAAAAAAAAAAAAAAAAAAAAAAAAAAAAAAAAAAAAAAAAA") 24 := by
  have hl : (("AAAAAAAAAAAAAAAAAAAAAAAAAAAAAAAAAAAAAAAAAAAAAAAA" : String).data.length : ℚ) = 48 := by
    simp
  simp only [titleClipWidthOf, textAreaWidthOf, textAreaRightOf, textAreaLeftOf,
    albumXOf, albumPositionOf, orStr, emptyS, paddingC, defaultSvgConfig,
    estimateTextWidth, hl]
  simp
  norm_num [max_lt_iff]

/-- Witness for the scroll rule: the scrolling markup appears for a long
title with the default left alignment, and the static truncated markup is
chosen under centered alignment. -/
theorem title_scroll_rule_witness :
    StrIn ("<animateTransform attributeName=\"transform\" type=\"translate\"")
      (generateNowPlayingSvg (fun _ => emptyS) (fun _ _ _ _ _ _ _ _ => emptyS) 0
        (some { title := ("AAAAAAAAAAAAAAAAAAAAAAAAAAAAAAAAAAAAAAAAAAAAAAAA"),
                artist := ("a"), album := ("b"), albumArtist := ("a"),
                trackNumber := emptyS, duration := 0, progress := 0,
                status := ("playing"), artBase64 := none, colors := none,
                updatedAt := 0 }) defaultSvgConfig) ∧
    titleBlockOf (fun _ => emptyS) { defaultSvgConfig with textAlign := ("center") }
        { title := ("t"), artist := ("a"), album := ("b"), albumArtist := ("a"),
          trackNumber := emptyS, duration := 0, progress := 0, status := ("playing"),
          artBase64 := none, colors := none, updatedAt := 0 } =
      staticTitleMarkup (fun _ => emptyS)
        (textXOf { defaultSvgConfig with textAlign := ("center") })
        (albumYOf { defaultSvgConfig with textAlign := ("center") } + 40) 24
        ({ defaultSvgConfig with textAlign := ("center") } : SvgConfig).textPrimary
        (textAnchorOf { defaultSvgConfig with textAlign := ("center") })
        (fontTitleFamilyOf { defaultSvgConfig with textAlign := ("center") }) ("t")
        (maxCharsFor { defaultSvgConfig with textAlign := ("center") } 24) :=
  ⟨((title_scroll_rule (fun _ => emptyS) (fun _ _ _ _ _ _ _ _ => emptyS) 0 _
      defaultSvgConfig rfl (Or.inl rfl)).1 rfl titleClip_default_pos
      titleClip_default_lt).2.2,
   (title_scroll_rule (fun _ => emptyS) (fun _ _ _ _ _ _ _ _ => emptyS) 0 _
      { defaultSvgConfig with textAlign := ("center") } rfl (Or.inl rfl)).2 rfl⟩

theorem jsRound_eq_of {q : ℚ} {z : ℤ} (h1 : (z : ℚ) ≤ q + 1 / 2)
    (h2 : q + 1 / 2 < z + 1) : jsRound q = z := by
  rw [jsRound_eq_floor]
  exact Int.floor_eq_iff.mpr ⟨h1, h2⟩

theorem mixColors_eval {A B : String} {a1 a2 a3 b1 b2 b3 : ℕ} {k : ℚ} {c1 c2 c3 : ℕ}
    (hA : hexToRgb A = some (a1, a2, a3)) (hB : hexToRgb B = some (b1, b2, b3))
    (h1 : jsRound ((a1 : ℚ) * (1 - k) + (b1 : ℚ) * k) = (c1 : ℤ))
    (h2 : jsRound ((a2 : ℚ) * (1 - k) + (b2 : ℚ) * k) = (c2 : ℤ))
    (h3 : jsRound ((a3 : ℚ) * (1 - k) + (b3 : ℚ) * k) = (c3 : ℤ))
    (hc1 : c1 ≤ 255) (hc2 : c2 ≤ 255) (hc3 : c3 ≤ 255) :
    mixColors A B k = some (rgbToHex c1 c2 c3) := by
  unfold mixColors
  rw [hA, hB]
  simp only []
  rw [h1, h2, h3, clamp255_of_le (by omega) (by omega),
    clamp255_of_le (by omega) (by omega), clamp255_of_le (by omega) (by omega)]
  simp

set_option maxRecDepth 100000 in
/-- Counterexample to claim C4 as stated: a configuration whose album art
consumes the whole card width leaves a title clip width of zero, so with
left alignment the estimated title width exceeds the clip width, yet the
renderer selects the static truncated single-text-node markup, not the
scrolling markup, and the rendered title block carries no animated
transform. The code additionally requires a positive clip width, which the
claim omits. -/
theorem title_scroll_claim_counterexample :
    ({ defaultSvgConfig with width := 200 } : SvgConfig).textAlign = "left" ∧
    titleClipWidthOf { defaultSvgConfig with width := 200 } <
      estimateTextWidth ("Hello World Hello World") 24 ∧
    titleBlockOf (fun _ => emptyS) { defaultSvgConfig with width := 200 }
        (⟨("Hello World Hello World"), ("a"), ("b"), ("a"), emptyS, 0, 0, ("playing"),
          none, some ⟨("#050505"), ("#10a37f"), ("#32cd32")⟩, 0⟩ : NowPlayingData) =
      staticTitleMarkup (fun _ => emptyS) (textXOf { defaultSvgConfig with width := 200 })
        (albumYOf { defaultSvgConfig with width := 200 } + 40) 24
        ({ defaultSvgConfig with width := 200 } : SvgConfig).textPrimary
        (textAnchorOf { defaultSvgConfig with width := 200 })
        (fontTitleFamilyOf { defaultSvgConfig with width := 200 })
        ("Hello World Hello World") 10 ∧
    ¬ StrIn ("<animateTransform")
      (titleBlockOf (fun _ => emptyS) { defaultSvgConfig with width := 200 }
        (⟨("Hello World Hello World"), ("a"), ("b"), ("a"), emptyS, 0, 0, ("playing"),
          none, some ⟨("#050505"), ("#10a37f"), ("#32cd32")⟩, 0⟩ : NowPlayingData)) := by
  have hclip : titleClipWidthOf { defaultSvgConfig with width := 200 } = 0 := by
    simp only [titleClipWidthOf, textAreaWidthOf, textAreaRightOf, textAreaLeftOf,
      albumXOf, albumPositionOf, orStr, emptyS, paddingC, defaultSvgConfig]
    simp
    norm_num [max_def]
  have hscroll : titleScrollNeededOf { defaultSvgConfig with width := 200 }
      ("Hello World Hello World") = false := by
    unfold titleScrollNeededOf
    rw [hclip]
    norm_num
  have hmax : maxCharsFor { defaultSvgConfig with width := 200 } 24 = 10 := by
    unfold maxCharsFor
    rw [show textAreaWidthOf { defaultSvgConfig with width := 200 } = 0 from hclip]
    norm_num [Rat.floor_def']
    decide
  have hblock : titleBlockOf (fun _ => emptyS) { defaultSvgConfig with width := 200 }
      (⟨("Hello World Hello World"), ("a"), ("b"), ("a"), emptyS, 0, 0, ("playing"),
        none, some ⟨("#050505"), ("#10a37f"), ("#32cd32")⟩, 0⟩ : NowPlayingData) =
      staticTitleMarkup (fun _ => emptyS) (textXOf { defaultSvgConfig with width := 200 })
        (albumYOf { defaultSvgConfig with width := 200 } + 40) 24
        ({ defaultSvgConfig with width := 200 } : SvgConfig).textPrimary
        (textAnchorOf { defaultSvgConfig with width := 200 })
        (fontTitleFamilyOf { defaultSvgConfig with width := 200 })
        ("Hello World Hello World") 10 := by
    unfold titleBlockOf
    simp only [orStr_emptyS, hscroll, Bool.false_eq_true, if_false, hmax]
  refine ⟨rfl, ?_, hblock, ?_⟩
  · rw [hclip]
    have hl : (("Hello World Hello World" : String).data.length : ℚ) = 23 := by simp
    norm_num [estimateTextWidth, hl]
  · rw [hblock]
    have hanchor : textAnchorOf { defaultSvgConfig with width := 200 } = ("start") := by
      simp only [textAnchorOf, textAlignOf, orStr, emptyS, defaultSvgConfig]
      simp
    have hfam : fontTitleFamilyOf { defaultSvgConfig with width := 200 } =
        apos ++ ("DotGothic16") ++ apos ++ (", ") ++
          (apos ++ ("Segoe UI") ++ apos ++ (", sans-serif")) := by
      simp only [fontTitleFamilyOf, fontFallbackOf, orStr, emptyS, defaultSvgConfig]
      simp [apos]
    rw [hanchor, hfam]
    unfold staticTitleMarkup StrIn
    unfold tpl
    decide

/-- Claim C6: POST /api/now-playing returns 401 when the Authorization
header is missing or fails the Bearer-key check, 400 with valid auth when
the body is not valid JSON; in both error cases the stored slot is left
unchanged; with valid auth and a body that parses, it returns 200 with the
success body and the slot is overwritten with the parsed value. -/
theorem post_now_playing_contract (apiKey : String) (req : ServerRequest)
    (store : Option Json) :
    (req.authHeader = none →
      (handlePostNowPlaying apiKey req store).1.status = 401 ∧
        (handlePostNowPlaying apiKey req store).2 = store) ∧
    (validateAuth apiKey req = false →
      (handlePostNowPlaying apiKey req store).1.status = 401 ∧
        (handlePostNowPlaying apiKey req store).1.body =
          ("\x7b\"error\":\"Unauthorized\"\x7d") ∧
        (handlePostNowPlaying apiKey req store).2 = store) ∧
    (validateAuth apiKey req = true → req.bodyJson = none →
      (handlePostNowPlaying apiKey req store).1.status = 400 ∧
        (handlePostNowPlaying apiKey req store).1.body =
          ("\x7b\"error\":\"Invalid JSON\"\x7d") ∧
        (handlePostNowPlaying apiKey req store).2 = store) ∧
    (∀ v : Json, validateAuth apiKey req = true → req.bodyJson = some v →
      (handlePostNowPlaying apiKey req store).1.status = 200 ∧
        (handlePostNowPlaying apiKey req store).1.body = ("\x7b\"success\":true\x7d") ∧
        (handlePostNowPlaying apiKey req store).2 = some v) := by
  refine ⟨?_, ?_, ?_, ?_⟩
  · intro h
    have hv : validateAuth apiKey req = false := by
      unfold validateAuth
      rw [h]
    simp [handlePostNowPlaying, hv]
  · intro hv
    simp [handlePostNowPlaying, hv]
  · intro hv hb
    simp [handlePostNowPlaying, hv, hb]
  · intro v hv hb
    simp [handlePostNowPlaying, hv, hb]

/-- Witness for the POST contract: a missing header, a wrong scheme, a
non-JSON body under the right key, and a null JSON body under the right
key, each at its concrete request. -/
theorem post_now_playing_contract_witness :
    ((handlePostNowPlaying ("k") ⟨("POST"), ("/api/now-playing"), none, none, {}⟩
        (some Json.null)).1.status = 401 ∧
      (handlePostNowPlaying ("k") ⟨("POST"), ("/api/now-playing"), none, none, {}⟩
        (some Json.null)).2 = some Json.null) ∧
    ((handlePostNowPlaying ("k") ⟨("POST"), ("/api/now-playing"), some ("Basic x"),
        some (Json.str ("s")), {}⟩ none).1.status = 401 ∧
      (handlePostNowPlaying ("k") ⟨("POST"), ("/api/now-playing"), some ("Basic x"),
        some (Json.str ("s")), {}⟩ none).1.body = ("\x7b\"error\":\"Unauthorized\"\x7d") ∧
      (handlePostNowPlaying ("k") ⟨("POST"), ("/api/now-playing"), some ("Basic x"),
        some (Json.str ("s")), {}⟩ none).2 = none) ∧
    ((handlePostNowPlaying ("k") ⟨("POST"), ("/api/now-playing"), some ("Bearer k"),
        none, {}⟩ none).1.status = 400 ∧
      (handlePostNowPlaying ("k") ⟨("POST"), ("/api/now-playing"), some ("Bearer k"),
        none, {}⟩ none).1.body = ("\x7b\"error\":\"Invalid JSON\"\x7d") ∧
      (handlePostNowPlaying ("k") ⟨("POST"), ("/api/now-playing"), some ("Bearer k"),
        none, {}⟩ none).2 = none) ∧
    ((handlePostNowPlaying ("k") ⟨("POST"), ("/api/now-playing"), some ("Bearer k"),
        some Json.null, {}⟩ none).1.status = 200 ∧
      (handlePostNowPlaying ("k") ⟨("POST"), ("/api/now-playing"), some ("Bearer k"),
        some Json.null, {}⟩ none).1.body = ("\x7b\"success\":true\x7d") ∧
      (handlePostNowPlaying ("k") ⟨("POST"), ("/api/now-playing"), some ("Bearer k"),
        some Json.null, {}⟩ none).2 = some Json.null) :=
  ⟨(post_now_playing_contract ("k") _ _).1 rfl,
   (post_now_playing_contract ("k") _ _).2.1 (by decide),
   (post_now_playing_contract ("k") _ _).2.2.1 (by decide) rfl,
   (post_now_playing_contract ("k") _ _).2.2.2 Json.null (by decide) rfl⟩

/-- Claim C10: with valid auth, every request whose body parses as JSON —
null, arrays, or objects missing every snapshot field included — yields 200
with the success body, and the stored slot is overwritten with the parsed
value verbatim; no schema validation is applied between parsing and
storing. -/
theorem post_stores_parsed_json_verbatim (apiKey : String) (req : ServerRequest)
    (store : Option Json) (v : Json)
    (hauth : validateAuth apiKey req = true) (hbody : req.bodyJson = some v) :
    (handlePostNowPlaying apiKey req store).1.status = 200 ∧
      (handlePostNowPlaying apiKey req store).1.body = ("\x7b\"success\":true\x7d") ∧
      (handlePostNowPlaying apiKey req store).2 = some v := by
  simp [handlePostNowPlaying, hauth, hbody]

/-- Witness for verbatim storage: an empty-array body is stored as is. -/
theorem post_stores_parsed_json_verbatim_witness :
    (handlePostNowPlaying ("k") ⟨("POST"), ("/api/now-playing"), some ("Bearer k"),
        some (Json.arr []), {}⟩ (some Json.null)).1.status = 200 ∧
      (handlePostNowPlaying ("k") ⟨("POST"), ("/api/now-playing"), some ("Bearer k"),
        some (Json.arr []), {}⟩ (some Json.null)).1.body = ("\x7b\"success\":true\x7d") ∧
      (handlePostNowPlaying ("k") ⟨("POST"), ("/api/now-playing"), some ("Bearer k"),
        some (Json.arr []), {}⟩ (some Json.null)).2 = some (Json.arr []) :=
  post_stores_parsed_json_verbatim ("k") _ _ (Json.arr []) (by decide) rfl

/-- Counterexample to claim C9 as stated: the widget image is not routed at
/widget.svg — a GET of that path falls through to the 404 handler. -/
theorem widget_svg_route_counterexample :
    (handleRequest ("k") (fun _ => emptyS) (fun _ _ _ _ _ _ _ _ => emptyS) 0
        (fun _ => none) (fun _ => none) none none (fun _ => ("null"))
        ⟨("GET"), ("/widget.svg"), none, none, {}⟩).1.status = 404 ∧
      (handleRequest ("k") (fun _ => emptyS) (fun _ _ _ _ _ _ _ _ => emptyS) 0
        (fun _ => none) (fun _ => none) none none (fun _ => ("null"))
        ⟨("GET"), ("/widget.svg"), none, none, {}⟩).1.body =
        ("\x7b\"error\":\"Not found\"\x7d") := by
  constructor <;> rfl

/-- Claim C9 (amended): the widget image route is /now-playing.svg — a GET
request there returns 200 with Content-Type image/svg+xml and Cache-Control
s-maxage=1, the body being the SVG rendered from the stored snapshot and
the query-derived configuration, and the stored slot is unchanged. -/
theorem now_playing_svg_route (apiKey : String) (fmt : QFmt) (wave : WaveFn) (now : ℚ)
    (loadTheme : String → Option SvgConfig)
    (loadFontData : String → Option (String × String))
    (stored : Option NowPlayingData) (storedRaw : Option Json)
    (stringify : Option Json → String) (req : ServerRequest)
    (hpath : req.path = "/now-playing.svg") (hmethod : req.method = "GET") :
    (handleRequest apiKey fmt wave now loadTheme loadFontData stored storedRaw
        stringify req).1.status = 200 ∧
      getHeader (handleRequest apiKey fmt wave now loadTheme loadFontData stored storedRaw
        stringify req).1.headers ("Content-Type") = some ("image/svg+xml") ∧
      getHeader (handleRequest apiKey fmt wave now loadTheme loadFontData stored storedRaw
        stringify req).1.headers ("Cache-Control") = some ("s-maxage=1") ∧
      (handleRequest apiKey fmt wave now loadTheme loadFontData stored storedRaw
        stringify req).1.body =
        generateNowPlayingSvg fmt wave now stored
          (buildSvgConfig loadTheme loadFontData req.query) ∧
      (handleRequest apiKey fmt wave now loadTheme loadFontData stored storedRaw
        stringify req).2 = storedRaw := by
  simp only [handleRequest, hpath, hmethod]
  simp [handleGetSvg, corsWrap, corsHeaders, setHeader, getHeader]

/-- Witness for the amended widget route at a concrete request. -/
theorem now_playing_svg_route_witness :
    (handleRequest ("k") (fun _ => emptyS) (fun _ _ _ _ _ _ _ _ => emptyS) 0
        (fun _ => none) (fun _ => none) none none (fun _ => ("null"))
        ⟨("GET"), ("/now-playing.svg"), none, none, {}⟩).1.status = 200 ∧
      getHeader (handleRequest ("k") (fun _ => emptyS) (fun _ _ _ _ _ _ _ _ => emptyS) 0
        (fun _ => none) (fun _ => none) none none (fun _ => ("null"))
        ⟨("GET"), ("/now-playing.svg"), none, none, {}⟩).1.headers ("Content-Type") =
        some ("image/svg+xml") ∧
      getHeader (handleRequest ("k") (fun _ => emptyS) (fun _ _ _ _ _ _ _ _ => emptyS) 0
        (fun _ => none) (fun _ => none) none none (fun _ => ("null"))
        ⟨("GET"), ("/now-playing.svg"), none, none, {}⟩).1.headers ("Cache-Control") =
        some ("s-maxage=1") ∧
      (handleRequest ("k") (fun _ => emptyS) (fun _ _ _ _ _ _ _ _ => emptyS) 0
        (fun _ => none) (fun _ => none) none none (fun _ => ("null"))
        ⟨("GET"), ("/now-playing.svg"), none, none, {}⟩).1.body =
        generateNowPlayingSvg (fun _ => emptyS) (fun _ _ _ _ _ _ _ _ => emptyS) 0 none
          (buildSvgConfig (fun _ => none) (fun _ => none) {}) ∧
      (handleRequest ("k") (fun _ => emptyS) (fun _ _ _ _ _ _ _ _ => emptyS) 0
        (fun _ => none) (fun _ => none) none none (fun _ => ("null"))
        ⟨("GET"), ("/now-playing.svg"), none, none, {}⟩).2 = none :=
  now_playing_svg_route ("k") _ _ _ _ _ _ _ _ _ rfl rfl

end TauonNP
